import Mathlib

/-!
Verification of the xfactor site_factor plugin
(src/src/plugins/site_factor/xfactor/site_factor_xfactor.c).

The C file is shallowly embedded below.  Machine integers are modelled as
`Nat` with explicit `% 2^32` at the points where the C code truncates
(uint32_t assignments and uint32_t arithmetic); `time_t` values are
modelled as `Nat`.  The floating-point step of `_calc_factor`
(`quotient = (double)delta / (double)tmp_time; factor = lround(quotient)`)
is modelled as exact rational rounding half away from zero, which for
nonnegative arguments is `(2*delta + tmp) / (2*tmp)` in integer division:
for `delta, tmp < 2^32` the double division is correctly rounded and its
error (at most `quotient * 2^-53`) is strictly smaller than the distance
`>= 1/(2*tmp)` from any half-integer boundary unless the quotient is
exactly a half-integer (itself exactly representable), so `lround` of the
double equals the exact rounding.
-/

namespace SiteFactorXfactor

/-- `2^32`, the modulus of `uint32_t` arithmetic. -/
def U32 : Nat := 4294967296

/-- Modelled from the spec: the host's "nice offset" bias constant
(`NICE_OFFSET` from slurm.h, which is not under src/); its value in the
host is `0x80000000`.  The spec calls this ceiling `MAX_WEIGHT`. -/
def NICE_OFFSET : Nat := 2147483648

/-- Modelled from the spec: the host's sentinel for an unset `time_limit`
(`NO_VAL` from slurm.h, not under src/; value `0xfffffffe`). -/
def NO_VAL : Nat := 4294967294

/-- Modelled from the spec: the host's sentinel for an unbounded partition
time limit (`INFINITE` from slurm.h, not under src/; value `0xffffffff`). -/
def INFINITE : Nat := 4294967295

/-- Modelled from the spec: the host's success status code
(`SLURM_SUCCESS`, not under src/; value 0). -/
def SLURM_SUCCESS : Int := 0

/-- The three module-level parameters
(`xfactor_min_time`, `xfactor_max`, `xfactor_weight`, lines 73-75),
threaded explicitly instead of read as globals. -/
structure XfactorParams where
  xfactor_min_time : Nat
  xfactor_max : Nat
  xfactor_weight : Nat
deriving Repr, DecidableEq

/-- The built-in defaults of lines 73-75. -/
def defaultParams : XfactorParams :=
  { xfactor_min_time := 1, xfactor_max := NICE_OFFSET, xfactor_weight := 1 }

/-- The part of `struct job_details` the plugin reads. -/
structure JobDetails where
  accrue_time : Nat
deriving Repr, DecidableEq

/-- The part of `struct part_record` the plugin reads. -/
structure PartRecord where
  max_time : Nat
deriving Repr, DecidableEq

/-- The part of `struct job_record` the plugin reads and writes.
`pending` models the host's `IS_JOB_PENDING` predicate. -/
structure JobRecord where
  details : Option JobDetails
  time_limit : Nat
  part_ptr : Option PartRecord
  site_factor : Nat
  pending : Bool
deriving Repr, DecidableEq

/-- ASCII lower-casing of a code point, as C `tolower` in the C locale. -/
def lowerN (n : Nat) : Nat := if 65 ≤ n ∧ n ≤ 90 then n + 32 else n

/-- Case-insensitive prefix test: does `pat` match the beginning of the
second list?  (The comparison `strncasecmp` underlying `xstrcasestr`.) -/
def matchesCI : List Char → List Char → Bool
  | [], _ => true
  | _ :: _, [] => false
  | p :: ps, c :: cs => (lowerN p.toNat == lowerN c.toNat) && matchesCI ps cs

/-- `xstrcasestr(hay, pat)`: the suffix of `hay` starting at the first
case-insensitive occurrence of `pat`, or `none` when there is no match
(the C function returns NULL). -/
def xstrcasestr : List Char → List Char → Option (List Char)
  | [], _ => none
  | c :: cs, pat =>
      if matchesCI pat (c :: cs) then some (c :: cs) else xstrcasestr cs pat

/-- C `isspace` in the C locale (the characters `atoi` skips). -/
def isSpaceN (n : Nat) : Bool :=
  n == 32 || n == 9 || n == 10 || n == 11 || n == 12 || n == 13

/-- Leading-whitespace skipping of `atoi`. -/
def skipSpaces : List Char → List Char
  | [] => []
  | c :: cs => if isSpaceN c.toNat then skipSpaces cs else c :: cs

/-- Accumulate the leading decimal digits, stopping at the first
non-digit (the permissive core of `atoi`). -/
def digitsVal : List Char → Nat → Nat
  | [], acc => acc
  | c :: cs, acc =>
      if 48 ≤ c.toNat ∧ c.toNat ≤ 57 then digitsVal cs (10 * acc + (c.toNat - 48))
      else acc

/-- C `atoi`: skip whitespace, optional sign, leading digits; yields 0 on
no digits.  Overflow of `int` is undefined behaviour in C; we model the
mathematical value (the range guards in `_parse_parameters` are applied
to its uint32 truncation either way). -/
def atoi (s : List Char) : Int :=
  match skipSpaces s with
  | '-' :: rest => -(digitsVal rest 0 : Int)
  | '+' :: rest => (digitsVal rest 0 : Int)
  | rest => (digitsVal rest 0 : Int)

/-- Conversion of a C `int` value to `uint32_t` (assignment of `atoi`'s
result to the uint32 locals of `_parse_parameters`). -/
def toU32 (i : Int) : Nat := (i.emod (U32 : Int)).toNat

def patMinTime : List Char := ("xfactor_min_time=").toList
def patMax : List Char := ("xfactor_max=").toList
def patWeight : List Char := ("xfactor_weight=").toList

def errNoParams : String := ("PrioritySiteFactorParameters not set.")
def errMinTimeMissing : String := ("xfactor_min_time not configured.")
def errMinTimeInvalid : String := ("invalid xfactor_min_time value.")
def errMaxMissing : String := ("xfactor_max not configured.")
def errMaxInvalid : String := ("invalid xfactor_max value.")
def errWeightMissing : String := ("xfactor_weight not configured.")
def errWeightInvalid : String := ("invalid xfactor_weight value.")

/-- `_parse_parameters` (lines 77-133).  The ambient configuration string
(`slurm_get_priority_site_factor_params()`, possibly NULL) and the prior
parameter state are passed explicitly; the returned list holds the error
messages logged by the call.  Each field is committed immediately after
its own range check and any failure jumps to cleanup, leaving the
remaining fields at their prior values. -/
def _parse_parameters (params : Option (List Char)) (s : XfactorParams) :
    XfactorParams × List String :=
  match params with
  | none => (s, [errNoParams])
  | some ps =>
    match xstrcasestr ps patMinTime with
    | none => (s, [errMinTimeMissing])
    | some tmp =>
      let min_time := toU32 (atoi (tmp.drop 17))
      if min_time < 1 ∨ min_time > 129600 then (s, [errMinTimeInvalid])
      else
        let s1 := { s with xfactor_min_time := min_time }
        match xstrcasestr ps patMax with
        | none => (s1, [errMaxMissing])
        | some tmp2 =>
          let maxv := toU32 (atoi (tmp2.drop 12))
          if maxv < 1 ∨ maxv > NICE_OFFSET then (s1, [errMaxInvalid])
          else
            let s2 := { s1 with xfactor_max := maxv }
            match xstrcasestr ps patWeight with
            | none => (s2, [errWeightMissing])
            | some tmp3 =>
              let weight := toU32 (atoi (tmp3.drop 15))
              if weight < 1 ∨ weight > NICE_OFFSET then (s2, [errWeightInvalid])
              else ({ s2 with xfactor_weight := weight }, [])

/-- `init` (lines 135-141): parses the configuration and returns
`SLURM_SUCCESS` unconditionally. -/
def init (cfg : Option (List Char)) (s : XfactorParams) :
    (XfactorParams × List String) × Int :=
  (_parse_parameters cfg s, SLURM_SUCCESS)

/-- `site_factor_p_reconfig` (lines 150-155): re-runs the parse; the C
function returns void, so it has no failure path at all. -/
def site_factor_p_reconfig (cfg : Option (List Char)) (s : XfactorParams) :
    XfactorParams × List String :=
  _parse_parameters cfg s

/-- Rounding of `delta / tmp` half away from zero on nonnegative
arguments: the exact value of `lround((double)delta / (double)tmp)` for
`delta, tmp < 2^32` (see the header comment).  `tmp = 0` (reachable only
with `xfactor_min_time = 0`, a state the parser cannot produce) is
division by zero in C; Lean's convention gives 0. -/
def lroundDiv (delta tmp : Nat) : Nat := (2 * delta + tmp) / (2 * tmp)

/-- Lines 174-180 before the `MAX`: the base effective time limit —
`time_limit` when not `NO_VAL`, else the partition's `max_time` when the
partition exists and its limit is not `INFINITE`, else the initial 1. -/
def effectiveBase (job : JobRecord) : Nat :=
  if job.time_limit ≠ NO_VAL then job.time_limit
  else match job.part_ptr with
    | some part => if part.max_time ≠ INFINITE then part.max_time else 1
    | none => 1

/-- Line 180: `tmp_time = MAX(tmp_time, xfactor_min_time)` — the divisor
actually used by `_calc_factor`. -/
def effectiveTimeLimit (min_time : Nat) (job : JobRecord) : Nat :=
  max (effectiveBase job) min_time

/-- `_calc_factor` (lines 157-191).  `now` is the value of `time(NULL)`.
`delta` is a uint32, so the `time_t` difference is truncated mod `2^32`;
the `lround` result (a C `long`) is likewise truncated on assignment to
the uint32 `factor` (an identity here since the quotient is below
`2^32`).  NOTE the multiplication on line 184 is performed on two
`uint32_t` operands, hence in 32-bit arithmetic, and wraps mod `2^32`
BEFORE the result is widened into the `uint64_t` variable
`weightened_factor`. -/
def _calc_factor (p : XfactorParams) (now : Nat) (job : JobRecord) : Nat :=
  if p.xfactor_weight = 0 then 0
  else match job.details with
  | none => 0
  | some details =>
    if details.accrue_time = 0 then 0
    else
      let delta : Nat :=
        if details.accrue_time < now then (now - details.accrue_time) % U32 else 0
      if delta = 0 then 0
      else
        let tmp_time := effectiveTimeLimit p.xfactor_min_time job
        let factor := lroundDiv delta tmp_time % U32
        let weightened_factor := factor * p.xfactor_weight % U32
        min weightened_factor p.xfactor_max

/-- `site_factor_p_set` (lines 193-198): writes
`_calc_factor(job) + NICE_OFFSET` (uint32 arithmetic) into the job's
site-factor field, regardless of job state. -/
def site_factor_p_set (p : XfactorParams) (now : Nat) (job : JobRecord) :
    JobRecord :=
  { job with site_factor := (_calc_factor p now job + NICE_OFFSET) % U32 }

/-- `_update` (lines 200-208): the per-job visitor of the bulk update —
recomputes and writes the factor only when the job is pending. -/
def _update (p : XfactorParams) (now : Nat) (job : JobRecord) : JobRecord :=
  if job.pending then
    { job with site_factor := (_calc_factor p now job + NICE_OFFSET) % U32 }
  else job

/-- `site_factor_p_update` (lines 210-215): applies `_update` to every
job of the host's job list. -/
def site_factor_p_update (p : XfactorParams) (now : Nat)
    (jobs : List JobRecord) : List JobRecord :=
  jobs.map (_update p now)

/-- Specification-side factor computation, following §4.2 of the spec
with step 6 taken at full mathematical width: the weighted product
`raw_factor * weight` is exact, not truncated, before the clamp against
`max_factor`.  Used to compare the code's `_calc_factor` against the
spec's overflow-free description. -/
def calcFactorSpec (p : XfactorParams) (now : Nat) (job : JobRecord) : Nat :=
  if p.xfactor_weight = 0 then 0
  else match job.details with
  | none => 0
  | some details =>
    if details.accrue_time = 0 then 0
    else
      let delta : Nat := now - details.accrue_time
      if delta = 0 then 0
      else
        let limit := effectiveTimeLimit p.xfactor_min_time job
        min (lroundDiv delta limit * p.xfactor_weight) p.xfactor_max

/-- The documented per-field ranges of the three parameters. -/
def paramsInRange (s : XfactorParams) : Prop :=
  1 ≤ s.xfactor_min_time ∧ s.xfactor_min_time ≤ 129600 ∧
  1 ≤ s.xfactor_max ∧ s.xfactor_max ≤ NICE_OFFSET ∧
  1 ≤ s.xfactor_weight ∧ s.xfactor_weight ≤ NICE_OFFSET

/-! Concrete fixtures used by the witness and counterexample theorems. -/

/-- Parameter state exhibiting the 32-bit wrap of line 184: a weight of
`2^16` is well inside the documented range `[1, NICE_OFFSET]`. -/
def pOvf : XfactorParams :=
  { xfactor_min_time := 1, xfactor_max := 100, xfactor_weight := 65536 }

/-- A pending job eligible since time 1 with a 1-minute time limit. -/
def jobOvf : JobRecord :=
  { details := some { accrue_time := 1 }, time_limit := 1, part_ptr := none,
    site_factor := 0, pending := true }

/-- A configuration string with valid min-time and max tokens and no
weight token (the spec's Scenario D). -/
def cfgD : List Char := ("xfactor_min_time=5,xfactor_max=100").toList

/-- The suffix of `cfgD` at its `xfactor_max=` token. -/
def cfgDmax : List Char := ("xfactor_max=100").toList

/-- The parameter state of the spec's Scenario A. -/
def pW : XfactorParams :=
  { xfactor_min_time := 5, xfactor_max := 100, xfactor_weight := 2 }

/-- The pending job of the spec's Scenario A (accrued 600 s before the
probe time 601 used in the witnesses). -/
def jobP : JobRecord :=
  { details := some { accrue_time := 1 }, time_limit := 10, part_ptr := none,
    site_factor := 0, pending := true }

/-- A non-pending (running) job, to observe the bulk update's frame. -/
def jobR : JobRecord :=
  { details := some { accrue_time := 1 }, time_limit := 10, part_ptr := none,
    site_factor := 7, pending := false }

/-- `jobP` after the bulk update: factor 100 plus the nice offset. -/
def jobPup : JobRecord := { jobP with site_factor := 2147483748 }

/-- A job with unset time limit and no partition at all. -/
def jobNull : JobRecord :=
  { details := some { accrue_time := 1 }, time_limit := NO_VAL, part_ptr := none,
    site_factor := 0, pending := true }

/-- A partition with an unbounded time limit. -/
def partInf : PartRecord := { max_time := INFINITE }

/-! Theorems. -/

/-- Claim C1: the weighted product of line 184 is NOT computed at a
width wide enough to avoid overflow before the clamp.  With weight
`2^16` (legal: well within `[1, NICE_OFFSET]`) and an elapsed eligible
time of `2^16` seconds against a 1-minute effective limit, the 32-bit
product `factor * xfactor_weight` wraps to 0 before the `uint64_t`
variable receives it, so `_calc_factor` returns 0 where the exact
mathematical product (`calcFactorSpec`, spec §4.2 step 6) clamps to the
configured `max_factor` of 100. -/
theorem C1_weighted_product_wraps_before_clamp :
    _calc_factor pOvf 65537 jobOvf = 0 ∧ calcFactorSpec pOvf 65537 jobOvf = 100 := by
  decide

/-- Claim C2: `_calc_factor` is claimed monotonically non-decreasing in
the elapsed eligible time, but the 32-bit wrap of line 184 violates
this: with the parameters of `pOvf`, growing the elapsed time from
65535 s to 65536 s (both at `accrue_time = 1`) makes the value fall
from the clamp 100 to 0. -/
theorem C2_monotonicity_violated_by_overflow :
    (65535 : Nat) ≤ 65536 ∧
    _calc_factor pOvf (1 + 65536) jobOvf < _calc_factor pOvf (1 + 65535) jobOvf := by
  decide

/-- Claim C3: when the configuration string has valid `xfactor_min_time`
and `xfactor_max` tokens but no `xfactor_weight` token,
`_parse_parameters` commits the new `min_time` and `max_factor` values,
leaves `weight` at its previous value, and logs the missing-weight
error (early abort after the two earlier per-field commits). -/
theorem C3_missing_weight_early_abort (s : XfactorParams) (ps tmp tmp2 : List Char)
    (h1 : xstrcasestr ps patMinTime = some tmp)
    (hv1 : 1 ≤ toU32 (atoi (tmp.drop 17)) ∧ toU32 (atoi (tmp.drop 17)) ≤ 129600)
    (h2 : xstrcasestr ps patMax = some tmp2)
    (hv2 : 1 ≤ toU32 (atoi (tmp2.drop 12)) ∧ toU32 (atoi (tmp2.drop 12)) ≤ NICE_OFFSET)
    (h3 : xstrcasestr ps patWeight = none) :
    _parse_parameters (some ps) s =
      ({ xfactor_min_time := toU32 (atoi (tmp.drop 17)),
         xfactor_max := toU32 (atoi (tmp2.drop 12)),
         xfactor_weight := s.xfactor_weight }, [errWeightMissing]) := by
  have e1 : ¬ (toU32 (atoi (tmp.drop 17)) < 1 ∨ toU32 (atoi (tmp.drop 17)) > 129600) := by
    omega
  have e2 : ¬ (toU32 (atoi (tmp2.drop 12)) < 1 ∨
      toU32 (atoi (tmp2.drop 12)) > NICE_OFFSET) := by
    omega
  simp only [_parse_parameters, h1, h2, h3]
  rw [if_neg e1, if_neg e2]

/-- Witness for C3, the spec's Scenario D: parsing
`"xfactor_min_time=5,xfactor_max=100"` from the defaults commits 5 and
100, keeps the default weight 1, and logs the missing-weight error. -/
theorem C3_missing_weight_early_abort_wit :
    _parse_parameters (some cfgD) defaultParams =
      ({ xfactor_min_time := 5, xfactor_max := 100, xfactor_weight := 1 },
       [errWeightMissing]) := by
  have h := C3_missing_weight_early_abort defaultParams cfgD cfgD cfgDmax
    rfl (by decide) rfl (by decide) rfl
  exact h.trans (by decide)

/-- Claim C4: `_calc_factor` returns 0 whenever the weight is 0, or the
job has no details record, or its `accrue_time` is 0, or `now` is at
or before `accrue_time` (zero or negative elapsed eligible time). -/
theorem C4_calc_factor_zero_cases (p : XfactorParams) (now : Nat) (job : JobRecord)
    (h : p.xfactor_weight = 0 ∨ job.details = none ∨
         ∃ d, job.details = some d ∧ (d.accrue_time = 0 ∨ now ≤ d.accrue_time)) :
    _calc_factor p now job = 0 := by
  unfold _calc_factor
  rcases h with h | h | ⟨d, hd, h⟩
  · simp [h]
  · simp [h]
  · rcases h with h | h
    · simp [hd, h]
    · have hlt : ¬ d.accrue_time < now := Nat.not_lt.mpr h
      simp [hd, hlt]

/-- Witness for C4: a zero weight forces a zero factor. -/
theorem C4_calc_factor_zero_cases_wit :
    _calc_factor { xfactor_min_time := 1, xfactor_max := 100, xfactor_weight := 0 }
      601 jobNull = 0 :=
  C4_calc_factor_zero_cases _ 601 jobNull (Or.inl rfl)

/-- Helper for C5: the calculator never exceeds the configured
maximum — every early return yields 0 and the final value is the `MIN`
of line 185. -/
theorem calc_factor_le_max (p : XfactorParams) (now : Nat) (job : JobRecord) :
    _calc_factor p now job ≤ p.xfactor_max := by
  unfold _calc_factor
  repeat' first
    | exact Nat.zero_le _
    | exact Nat.min_le_right _ _
    | split
    | dsimp only

/-- Claim C5: `_calc_factor` is at most `xfactor_max`, and the value
`site_factor_p_set` writes into the job record is at most
`xfactor_max + NICE_OFFSET`. -/
theorem C5_factor_bounded (p : XfactorParams) (now : Nat) (job : JobRecord) :
    _calc_factor p now job ≤ p.xfactor_max ∧
    (site_factor_p_set p now job).site_factor ≤ p.xfactor_max + NICE_OFFSET := by
  refine ⟨calc_factor_le_max p now job, ?_⟩
  unfold site_factor_p_set
  calc (_calc_factor p now job + NICE_OFFSET) % U32
      ≤ _calc_factor p now job + NICE_OFFSET := Nat.mod_le _ _
    _ ≤ p.xfactor_max + NICE_OFFSET :=
        Nat.add_le_add_right (calc_factor_le_max p now job) _

/-- Claim C6: the divisor `_calc_factor` uses is at least
`xfactor_min_time`, and it is the maximum of `min_time` with: the job's
`time_limit` when that is not the `NO_VAL` sentinel, else the
partition's `max_time` when the partition exists with a limit other
than `INFINITE`, else 1. -/
theorem C6_effective_time_limit_selection (p : XfactorParams) (job : JobRecord) :
    p.xfactor_min_time ≤ effectiveTimeLimit p.xfactor_min_time job ∧
    effectiveTimeLimit p.xfactor_min_time job =
      max (if job.time_limit = NO_VAL then
             (match job.part_ptr with
              | some part => if part.max_time = INFINITE then 1 else part.max_time
              | none => 1)
           else job.time_limit)
          p.xfactor_min_time := by
  refine ⟨Nat.le_max_right _ _, ?_⟩
  unfold effectiveTimeLimit effectiveBase
  by_cases h : job.time_limit = NO_VAL
  · cases hp : job.part_ptr with
    | none => simp [h]
    | some part => by_cases hm : part.max_time = INFINITE <;> simp [h, hm]
  · simp [h]

/-- Claim C7: the bulk update writes `_calc_factor + NICE_OFFSET`
(uint32 arithmetic) into the site-factor field of every pending job of
the list and leaves every non-pending job entirely unchanged. -/
theorem C7_bulk_update_pending_only (p : XfactorParams) (now : Nat)
    (jobs : List JobRecord) (i : Nat) (job : JobRecord) (h : jobs[i]? = some job) :
    (job.pending = true →
       (site_factor_p_update p now jobs)[i]? =
         some { job with site_factor := (_calc_factor p now job + NICE_OFFSET) % U32 }) ∧
    (job.pending = false → (site_factor_p_update p now jobs)[i]? = some job) := by
  unfold site_factor_p_update
  constructor <;> intro hp <;> simp [List.getElem?_map, h, _update, hp]

/-- Witness for C7, the spec's Scenario E: over the two-job list
`[jobP, jobR]`, the pending `jobP` gets factor 100 plus the offset
written while the running `jobR` is untouched. -/
theorem C7_bulk_update_pending_only_wit :
    (site_factor_p_update pW 601 [jobP, jobR])[0]? = some jobPup ∧
    (site_factor_p_update pW 601 [jobP, jobR])[1]? = some jobR := by
  constructor
  · have h := (C7_bulk_update_pending_only pW 601 [jobP, jobR] 0 jobP rfl).1 rfl
    exact h.trans (by decide)
  · exact (C7_bulk_update_pending_only pW 601 [jobP, jobR] 1 jobR rfl).2 rfl

/-- Claim C8: for every configuration-string state, `init` reports
`SLURM_SUCCESS` to the host (parse failures never propagate), and when
the configuration string is absent both `_parse_parameters` and
`site_factor_p_reconfig` leave the parameters entirely unchanged.
(`site_factor_p_reconfig` returns void in C, so it has no failure
path to the host at all.) -/
theorem C8_init_reconfig_always_succeed (cfg : Option (List Char)) (s : XfactorParams) :
    (init cfg s).2 = SLURM_SUCCESS ∧
    (_parse_parameters none s).1 = s ∧
    (site_factor_p_reconfig none s).1 = s :=
  ⟨rfl, rfl, rfl⟩

/-- Helper for C9: a single `_parse_parameters` call keeps every
parameter inside its documented range, because each per-field commit
sits behind its own range guard. -/
theorem parse_preserves_range (cfg : Option (List Char)) (s : XfactorParams)
    (h : paramsInRange s) : paramsInRange (_parse_parameters cfg s).1 := by
  unfold paramsInRange at h ⊢
  unfold _parse_parameters
  repeat' first
    | split
    | dsimp only
  all_goals simp_all
  all_goals omega

/-- Claim C9: starting from the built-in defaults, any sequence of
`_parse_parameters` calls (init/reconfig) with arbitrary configuration
strings leaves `min_time` in `[1, 129600]` and `max_factor` and
`weight` in `[1, NICE_OFFSET]`. -/
theorem C9_params_range_invariant (cfgs : List (Option (List Char))) :
    paramsInRange (cfgs.foldl (fun s cfg => (_parse_parameters cfg s).1) defaultParams) := by
  have h0 : paramsInRange defaultParams := by
    unfold paramsInRange
    decide
  suffices h : ∀ s, paramsInRange s →
      paramsInRange (cfgs.foldl (fun s cfg => (_parse_parameters cfg s).1) s) by
    exact h _ h0
  induction cfgs with
  | nil => exact fun s hs => hs
  | cons c cs ih => exact fun s hs => ih _ (parse_preserves_range c s hs)

/-- Claim C10: a job whose `time_limit` is the `NO_VAL` sentinel and
which has no partition at all gets the fallback base 1 for the
effective time limit (before the `min_time` clamp), exactly as a job
whose partition limit is the `INFINITE` sentinel. -/
theorem C10_null_partition_fallback (job : JobRecord) (part : PartRecord)
    (h1 : job.time_limit = NO_VAL) (h2 : job.part_ptr = none)
    (h3 : part.max_time = INFINITE) :
    effectiveBase job = 1 ∧
    effectiveBase { job with part_ptr := some part } = 1 := by
  unfold effectiveBase
  simp [h1, h2, h3]

/-- Witness for C10: the concrete partition-less job and the unbounded
partition both fall back to base 1. -/
theorem C10_null_partition_fallback_wit :
    effectiveBase jobNull = 1 ∧
    effectiveBase { jobNull with part_ptr := some partInf } = 1 :=
  C10_null_partition_fallback jobNull partInf rfl rfl rfl

end SiteFactorXfactor
